import Mathlib

/-!
# Shallow embedding of the koncord transaction-processing core

This file embeds the transaction-processing core of the koncord repository
(`src/client.rs`, `src/transaction.rs`, `src/lib.rs`) and proves or refutes
the specification claims about it.

Modelling conventions:
* Monetary amounts are `rust_decimal::Decimal` values at the fixed scale of
  four digits past the decimal point (`SCALE = 4` in `src/client.rs`).  They
  are modelled as `Int`, counting units of `10 ^ (-4)` (so `1.5` is `15000`).
  All operations the code performs on amounts are addition, subtraction and
  comparison, which agree with exact integer arithmetic at a common scale.
* Client ids (`u16`) and transaction ids (`u32`) are modelled as `Nat`; no
  claim depends on the bit width.
* `HashMap<u32, Decimal>` (the dispute cache) is modelled as an association
  list with unique keys: `insert` replaces any existing binding, `remove`
  deletes the binding, lookups see the most recent binding.
* `HashMap<u16, Client>` (the client map) is modelled as a total function
  `Nat → Account`; `entry(..).or_insert(Client::new(..))` corresponds to the
  function defaulting every unseen id to the fresh zero-balance account.
* Fallible Rust code returns `Except`; the `Option::unwrap` call in
  `process_record` (which panics on `None`) is modelled as a distinguished
  error `RunError.unwrapNone`, kept separate from `InvalidTransitionError`
  values that the Rust code returns as `Result::Err`.
-/

namespace Koncord

/-- Transaction kinds (`TransactionKind` in `src/transaction.rs`). -/
inductive TransactionKind where
  | deposit
  | withdrawal
  | dispute
  | resolve
  | chargeback
deriving DecidableEq, Repr

/-- The Rust `Debug` rendering of a `TransactionKind`, as produced by
`format!("{kind:?}")` in the invalid-transition errors. -/
def TransactionKind.debugName : TransactionKind → String
  | .deposit => "Deposit"
  | .withdrawal => "Withdrawal"
  | .dispute => "Dispute"
  | .resolve => "Resolve"
  | .chargeback => "Chargeback"

/-- A raw transaction record (`Record` in `src/transaction.rs`): kind,
client id, transaction id, and an optional amount. -/
structure Record where
  kind : TransactionKind
  client : Nat
  tx : Nat
  amount : Option Int
deriving DecidableEq, Repr

/-- Account balance (`Balance` in `src/client.rs`). -/
structure Balance where
  available : Int
  held : Int
  total : Int
deriving DecidableEq, Repr

/-- `Balance::new()`: all three fields zero. -/
def Balance.new : Balance := ⟨0, 0, 0⟩

/-- `Balance::deposit`: guarded by `amount > 0`. -/
def Balance.deposit (b : Balance) (amount : Int) : Balance :=
  if amount > 0 then
    { b with available := b.available + amount, total := b.total + amount }
  else b

/-- `Balance::withdraw`: guarded by `available > amount && amount > 0`. -/
def Balance.withdraw (b : Balance) (amount : Int) : Balance :=
  if b.available > amount ∧ amount > 0 then
    { b with available := b.available - amount, total := b.total - amount }
  else b

/-- `Balance::dispute`: guarded by `amount > 0`; moves amount from available
to held, total unchanged. -/
def Balance.dispute (b : Balance) (amount : Int) : Balance :=
  if amount > 0 then
    { b with available := b.available - amount, held := b.held + amount }
  else b

/-- `Balance::resolve`: guarded by `amount > 0`; moves amount from held back
to available, total unchanged. -/
def Balance.resolve (b : Balance) (amount : Int) : Balance :=
  if amount > 0 then
    { b with available := b.available + amount, held := b.held - amount }
  else b

/-- `Balance::chargeback`: guarded by `amount > 0`; removes amount from held
and total. -/
def Balance.chargeback (b : Balance) (amount : Int) : Balance :=
  if amount > 0 then
    { b with held := b.held - amount, total := b.total - amount }
  else b

/-- `AccountInner` in `src/client.rs`: an account is `Open` or `Frozen`,
each carrying a balance.  (`Account` in the source is a newtype around
`AccountInner`; the wrapper adds nothing and is flattened here.) -/
inductive Account where
  | Open (balance : Balance)
  | Frozen (balance : Balance)
deriving DecidableEq, Repr

/-- `Account::new()` (via `AccountInner::new()`): `Open` with zero balance. -/
def Account.new : Account := .Open Balance.new

/-- The balance carried by an account, in either state. -/
def Account.balance : Account → Balance
  | .Open b => b
  | .Frozen b => b

/-- `Account::deposit`: delegates to the balance when `Open`, otherwise a
no-op (`_ => ()` arm). -/
def Account.deposit : Account → Int → Account
  | .Open b, amount => .Open (b.deposit amount)
  | a, _ => a

/-- `Account::withdraw`: delegates to the balance when `Open`, otherwise a
no-op. -/
def Account.withdraw : Account → Int → Account
  | .Open b, amount => .Open (b.withdraw amount)
  | a, _ => a

/-- `Account::dispute`: delegates to the balance when `Open`, otherwise a
no-op. -/
def Account.dispute : Account → Int → Account
  | .Open b, amount => .Open (b.dispute amount)
  | a, _ => a

/-- `Account::resolve`: delegates to the balance when `Open`, otherwise a
no-op. -/
def Account.resolve : Account → Int → Account
  | .Open b, amount => .Open (b.resolve amount)
  | a, _ => a

/-- `Account::chargeback`: when `Open`, applies `Balance::chargeback` and
then unconditionally replaces the state with `Frozen` carrying the resulting
balance; when already `Frozen`, a no-op. -/
def Account.chargeback : Account → Int → Account
  | .Open b, amount => .Frozen (b.chargeback amount)
  | a, _ => a

/-- State `Received` of the transaction state machine
(`src/transaction.rs`): id, kind and optional amount taken verbatim from the
input record. -/
structure Received where
  id : Nat
  kind : TransactionKind
  amount : Option Int
deriving DecidableEq, Repr

/-- State `Processing`: a kind together with a resolved (non-optional)
amount. -/
structure Processing where
  kind : TransactionKind
  amount : Int
deriving DecidableEq, Repr

/-- State `DisputeLookup`: transaction id to look up, amount initially
`none`. -/
structure DisputeLookup where
  tx : Nat
  amount : Option Int
deriving DecidableEq, Repr

/-- State `Resolved`: transaction id, amount initially `none`. -/
structure Resolved where
  tx : Nat
  amount : Option Int
deriving DecidableEq, Repr

/-- State `ChargedBack`: transaction id, amount initially `none`. -/
structure ChargedBack where
  tx : Nat
  amount : Option Int
deriving DecidableEq, Repr

/-- `InvalidTransitionError` (`src/transaction.rs`): the `from` and `to`
strings of the error (field `from` is a Lean keyword, hence `fromS`/`toS`). -/
structure InvalidTransitionError where
  fromS : String
  toS : String
deriving DecidableEq, Repr

/-- `impl From<Record> for Transaction<Received>`. -/
def Received.fromRecord (record : Record) : Received :=
  { id := record.tx, kind := record.kind, amount := record.amount }

/-- `impl TryFrom<Transaction<Received>> for Transaction<Processing>`:
deposit/withdrawal with a present amount succeed; deposit/withdrawal with a
missing amount fall through to the trailing
`Err(Received → Processing)`; every other kind errs with the kind's debug
name as the `to` field. -/
def Received.tryToProcessing (prev : Received) :
    Except InvalidTransitionError Processing :=
  match prev.kind with
  | .deposit =>
    match prev.amount with
    | some amount => .ok ⟨prev.kind, amount⟩
    | none => .error ⟨"Transaction<Received>", "Transaction<Processing>"⟩
  | .withdrawal =>
    match prev.amount with
    | some amount => .ok ⟨prev.kind, amount⟩
    | none => .error ⟨"Transaction<Received>", "Transaction<Processing>"⟩
  | kind => .error ⟨"Transaction<Received>", kind.debugName⟩

/-- `impl TryFrom<Transaction<Received>> for Transaction<DisputeLookup>`. -/
def Received.tryToDisputeLookup (prev : Received) :
    Except InvalidTransitionError DisputeLookup :=
  match prev.kind with
  | .dispute => .ok ⟨prev.id, none⟩
  | kind => .error ⟨"Transaction<Received>", kind.debugName⟩

/-- `impl TryFrom<Transaction<Received>> for Transaction<Resolved>`. -/
def Received.tryToResolved (prev : Received) :
    Except InvalidTransitionError Resolved :=
  match prev.kind with
  | .resolve => .ok ⟨prev.id, none⟩
  | kind => .error ⟨"Transaction<Received>", kind.debugName⟩

/-- `impl TryFrom<Transaction<Received>> for Transaction<ChargedBack>`. -/
def Received.tryToChargedBack (prev : Received) :
    Except InvalidTransitionError ChargedBack :=
  match prev.kind with
  | .chargeback => .ok ⟨prev.id, none⟩
  | kind => .error ⟨"Transaction<Received>", kind.debugName⟩

/-- `impl TryFrom<Transaction<DisputeLookup>> for Transaction<Processing>`:
requires a resolved amount; the kind is hardcoded to `Dispute`. -/
def DisputeLookup.tryToProcessing (prev : DisputeLookup) :
    Except InvalidTransitionError Processing :=
  match prev.amount with
  | some amount => .ok ⟨.dispute, amount⟩
  | none => .error ⟨"Transaction<DisputeLookup>", "Transaction<Processing>"⟩

/-- `impl TryFrom<Transaction<Resolved>> for Transaction<Processing>`. -/
def Resolved.tryToProcessing (prev : Resolved) :
    Except InvalidTransitionError Processing :=
  match prev.amount with
  | some amount => .ok ⟨.resolve, amount⟩
  | none => .error ⟨"Transaction<Resolved>", "Transaction<Processing>"⟩

/-- `impl TryFrom<Transaction<ChargedBack>> for Transaction<Processing>`. -/
def ChargedBack.tryToProcessing (prev : ChargedBack) :
    Except InvalidTransitionError Processing :=
  match prev.amount with
  | some amount => .ok ⟨.chargeback, amount⟩
  | none => .error ⟨"Transaction<ChargedBack>", "Transaction<Processing>"⟩

/-- `Transaction::<Processing>::process`: dispatches the resolved
`(kind, amount)` pair to the matching `Account` operation. -/
def Processing.process (t : Processing) (account : Account) : Account :=
  match t.kind with
  | .deposit => account.deposit t.amount
  | .withdrawal => account.withdraw t.amount
  | .dispute => account.dispute t.amount
  | .resolve => account.resolve t.amount
  | .chargeback => account.chargeback t.amount

/-- `lookup_record` (`src/lib.rs`): re-reads the record source from the
start and returns the first record whose transaction id matches, else
`none`.  (The deserialization `Result` layer is dropped: the source is
modelled as a list of already-parsed records.) -/
def lookup_record (records : List Record) (tx : Nat) : Option Record :=
  records.find? (fun record => record.tx == tx)

/-- `HashMap::remove`-style deletion for the dispute cache: removes the
binding for `tx` (all of them, so lookups after deletion find nothing). -/
def eraseDispute : List (Nat × Int) → Nat → List (Nat × Int)
  | [], _ => []
  | (k, v) :: rest, tx =>
    if k = tx then eraseDispute rest tx else (k, v) :: eraseDispute rest tx

/-- `HashMap::insert` for the dispute cache: replaces any existing binding
for `tx` by `amount`. -/
def insertDispute (disputes : List (Nat × Int)) (tx : Nat) (amount : Int) :
    List (Nat × Int) :=
  (tx, amount) :: eraseDispute disputes tx

/-- `HashMap::get`-style lookup for the dispute cache. -/
def lookupDispute : List (Nat × Int) → Nat → Option Int
  | [], _ => none
  | (k, v) :: rest, tx => if k = tx then some v else lookupDispute rest tx

/-- Errors that abort a run: `InvalidTransitionError` values propagated via
`?`, and the panic of `record.amount().unwrap()` on a `None` amount in the
dispute branch of `process_record` (`unwrapNone`). -/
inductive RunError where
  | invalidTransition (e : InvalidTransitionError)
  | unwrapNone
deriving DecidableEq, Repr

/-- `process_record` (`src/lib.rs`): processes a single record against the
owning client's account and the dispute cache.  `records` is the content of
the record source at `records_path` used by `lookup_record`.  Returns the
updated account and dispute cache, or the aborting error. -/
def process_record (records : List Record) (record : Record)
    (account : Account) (disputes : List (Nat × Int)) :
    Except RunError (Account × List (Nat × Int)) :=
  let recieved := Received.fromRecord record
  match recieved.kind with
  | .deposit | .withdrawal =>
    match recieved.tryToProcessing with
    | .error e => .error (.invalidTransition e)
    | .ok processing => .ok (processing.process account, disputes)
  | .dispute =>
    match recieved.tryToDisputeLookup with
    | .error e => .error (.invalidTransition e)
    | .ok dispute_lookup =>
      match lookup_record records dispute_lookup.tx with
      | some found =>
        -- `disputes.insert(record.tx(), record.amount().unwrap())` —
        -- the unwrap panics when the found record has no amount.
        match found.amount with
        | none => .error .unwrapNone
        | some amount =>
          let disputes' := insertDispute disputes found.tx amount
          let dispute_lookup' := { dispute_lookup with amount := found.amount }
          match dispute_lookup'.tryToProcessing with
          | .error e => .error (.invalidTransition e)
          | .ok processing => .ok (processing.process account, disputes')
      | none => .ok (account, disputes)
  | .resolve =>
    match recieved.tryToResolved with
    | .error e => .error (.invalidTransition e)
    | .ok resolved =>
      -- `disputes.remove(&resolved.tx())` both returns the value and
      -- deletes the entry; an absent key leaves the map unchanged.
      match lookupDispute disputes resolved.tx with
      | some amount =>
        let disputes' := eraseDispute disputes resolved.tx
        let resolved' := { resolved with amount := some amount }
        match resolved'.tryToProcessing with
        | .error e => .error (.invalidTransition e)
        | .ok processing => .ok (processing.process account, disputes')
      | none => .ok (account, disputes)
  | .chargeback =>
    match recieved.tryToChargedBack with
    | .error e => .error (.invalidTransition e)
    | .ok chargeback =>
      match lookupDispute disputes chargeback.tx with
      | some amount =>
        let disputes' := eraseDispute disputes chargeback.tx
        let chargeback' := { chargeback with amount := some amount }
        match chargeback'.tryToProcessing with
        | .error e => .error (.invalidTransition e)
        | .ok processing => .ok (processing.process account, disputes')
      | none => .ok (account, disputes)

/-- The client map (`HashMap<u16, Client>`), modelled as a total function
defaulting every unseen id to the fresh zero-balance account, which is what
`entry(..).or_insert(Client::new(record.client_id()))` produces. -/
def Clients : Type := Nat → Account

/-- The empty client map passed to `run` by `main`. -/
def initialClients : Clients := fun _ => Account.new

/-- The record-by-record loop inside `run` (`src/lib.rs`): `records` is the
lookup source (`records_path` content), `stream` the remaining primary
stream; the client map and dispute cache are threaded through, and any
`process_record` error aborts the loop. -/
def runLoop (records : List Record) (stream : List Record)
    (clients : Clients) (disputes : List (Nat × Int)) :
    Except RunError (Clients × List (Nat × Int)) :=
  match stream with
  | [] => .ok (clients, disputes)
  | record :: rest =>
    match process_record records record (clients record.client) disputes with
    | .error e => .error e
    | .ok (account, disputes') =>
      runLoop records rest
        (fun id => if id = record.client then account else clients id) disputes'

/-- `run` (`src/lib.rs`): starts with an empty dispute cache and drives
`runLoop` over the whole stream, returning the final client map.  `main`
passes the same file as both the primary stream and the lookup source. -/
def run (records : List Record) (stream : List Record) (clients : Clients) :
    Except RunError Clients :=
  (runLoop records stream clients []).map Prod.fst

/-- An abstract account operation, used to quantify over arbitrary sequences
of the five `Account` operations. -/
inductive Op where
  | deposit (amount : Int)
  | withdraw (amount : Int)
  | dispute (amount : Int)
  | resolve (amount : Int)
  | chargeback (amount : Int)
deriving DecidableEq, Repr

/-- Apply one abstract operation to an account. -/
def Account.applyOp (a : Account) : Op → Account
  | .deposit amount => a.deposit amount
  | .withdraw amount => a.withdraw amount
  | .dispute amount => a.dispute amount
  | .resolve amount => a.resolve amount
  | .chargeback amount => a.chargeback amount

/-- Apply a sequence of abstract operations, left to right. -/
def Account.applyOps (a : Account) (ops : List Op) : Account :=
  ops.foldl Account.applyOp a

/-- Stated from the spec's words, for comparison with `lookup_record`: the
first record in file order whose transaction id matches AND whose amount is
present. -/
def lookupFirstWithAmount (records : List Record) (tx : Nat) : Option Record :=
  records.find? (fun record => record.tx == tx && record.amount.isSome)

/-- Concrete input for claim C1: a single dispute record whose transaction
id 99 matches no deposit or withdrawal (it is the only record in the file). -/
def c1File : List Record := [⟨.dispute, 1, 99, none⟩]

/-- Concrete input for claim C2: a dispute appearing in the file before the
deposit that carries its transaction id's amount (5.0000). -/
def c2File : List Record :=
  [⟨.dispute, 1, 7, none⟩, ⟨.deposit, 1, 7, some 50000⟩]

/-- Concrete input for claim C3 as frozen: deposit(client 1, tx 6, 1.5),
dispute(client 1, tx 6), chargeback(client 1, tx 6), starting from the
initial empty client map (amounts in units of 10⁻⁴: 1.5 = 15000). -/
def c3File : List Record :=
  [⟨.deposit, 1, 6, some 15000⟩, ⟨.dispute, 1, 6, none⟩,
   ⟨.chargeback, 1, 6, none⟩]

/-! ## Helper lemmas -/

/-- `process` of any `Processing` transaction leaves a `Frozen` account
untouched: every `Account` operation has a catch-all no-op arm. -/
theorem Processing.process_frozen (t : Processing) (b : Balance) :
    t.process (.Frozen b) = .Frozen b := by
  obtain ⟨kind, amount⟩ := t
  cases kind <;> rfl

/-- After deleting a transaction id from the dispute cache, looking it up
finds nothing. -/
theorem lookupDispute_eraseDispute (d : List (Nat × Int)) (tx : Nat) :
    lookupDispute (eraseDispute d tx) tx = none := by
  induction d with
  | nil => rfl
  | cons p rest ih =>
    obtain ⟨k, v⟩ := p
    by_cases h : k = tx <;> simp [eraseDispute, lookupDispute, h, ih]

/-- Deleting a transaction id from the dispute cache twice is the same as
deleting it once. -/
theorem eraseDispute_idem (d : List (Nat × Int)) (tx : Nat) :
    eraseDispute (eraseDispute d tx) tx = eraseDispute d tx := by
  induction d with
  | nil => rfl
  | cons p rest ih =>
    obtain ⟨k, v⟩ := p
    by_cases h : k = tx <;> simp [eraseDispute, h, ih]

/-- Re-inserting the same binding overwrites the previous one: the cache is
unchanged. -/
theorem insertDispute_insertDispute (d : List (Nat × Int)) (tx : Nat)
    (a : Int) :
    insertDispute (insertDispute d tx a) tx a = insertDispute d tx a := by
  simp [insertDispute, eraseDispute, eraseDispute_idem]

/-- `process_record` never changes a `Frozen` account: whatever branch runs,
the account is only touched through the five `Account` operations, all of
which are no-ops on `Frozen`. -/
theorem process_record_frozen (file : List Record) (r : Record)
    (d : List (Nat × Int)) (b : Balance) (res : Account × List (Nat × Int))
    (h : process_record file r (.Frozen b) d = .ok res) : res.1 = .Frozen b := by
  simp only [process_record] at h
  repeat' split at h
  all_goals cases h
  all_goals first
    | rfl
    | exact Processing.process_frozen _ _

/-- One account operation preserves `total = available + held`. -/
theorem applyOp_preserves_total (a : Account) (op : Op)
    (h : a.balance.total = a.balance.available + a.balance.held) :
    ((a.applyOp op).balance).total
      = ((a.applyOp op).balance).available + ((a.applyOp op).balance).held := by
  cases a with
  | Frozen b => cases op <;> simpa [Account.applyOp] using h
  | Open b =>
    simp only [Account.balance] at h
    cases op <;>
      simp only [Account.applyOp, Account.deposit, Account.withdraw,
        Account.dispute, Account.resolve, Account.chargeback, Balance.deposit,
        Balance.withdraw, Balance.dispute, Balance.resolve, Balance.chargeback,
        Account.balance] <;>
      split <;> simp_all <;> omega

/-- A sequence of account operations preserves `total = available + held`. -/
theorem applyOps_preserves_total (ops : List Op) : ∀ (a : Account),
    a.balance.total = a.balance.available + a.balance.held →
    ((a.applyOps ops).balance).total
      = ((a.applyOps ops).balance).available + ((a.applyOps ops).balance).held := by
  induction ops with
  | nil => intro a h; simpa [Account.applyOps] using h
  | cons op rest ih =>
    intro a h
    have hstep : Account.applyOps a (op :: rest)
        = Account.applyOps (a.applyOp op) rest := rfl
    rw [hstep]
    exact ih _ (applyOp_preserves_total a op h)

/-- Every single account operation leaves a `Frozen` account untouched. -/
theorem applyOp_frozen (b : Balance) (op : Op) :
    Account.applyOp (.Frozen b) op = .Frozen b := by
  cases op <;> rfl

/-! ## Claim theorems -/

/-- Claim C1 (code bug witness).  A dispute whose transaction id 99 matches
no previously seen transaction does NOT complete without error: the record
lookup re-scans the whole file, finds the dispute record itself (its tx
field matches), and the unwrap of its absent amount aborts the run.  Both
`run` and `process_record` abort with the unwrap error instead of the
claimed silent no-op. -/
theorem C1_unknown_tx_dispute_aborts :
    run c1File c1File initialClients = .error .unwrapNone ∧
    process_record c1File ⟨.dispute, 1, 99, none⟩ Account.new []
      = .error .unwrapNone :=
  ⟨rfl, rfl⟩

/-- Claim C2 (counterexample).  In `c2File` the first record with transaction
id 7 AND a present amount is the deposit of 5.0000 — so the claim predicts
the dispute recovers amount 50000 and proceeds — but the code picks the
first record with matching tx regardless of amount presence (the dispute
record itself) and aborts on unwrapping its absent amount. -/
theorem C2_counterexample :
    lookupFirstWithAmount c2File 7 = some ⟨.deposit, 1, 7, some 50000⟩ ∧
    process_record c2File ⟨.dispute, 1, 7, none⟩ Account.new []
      = .error RunError.unwrapNone :=
  ⟨rfl, rfl⟩

/-- Claim C2 (amended).  For a dispute record, the code uses the first
record in file order whose transaction id matches, regardless of amount
presence: if no record matches, the dispute is dropped with no state
change; if the first matching record's amount is absent, the run aborts
with the unwrap error; if it is present, that amount is inserted into the
dispute cache under the found record's tx and the dispute is applied to
the account. -/
theorem C2_amended (file : List Record) (r : Record) (acc : Account)
    (d : List (Nat × Int)) (hk : r.kind = .dispute) :
    (lookup_record file r.tx = none → process_record file r acc d = .ok (acc, d)) ∧
    (∀ found, lookup_record file r.tx = some found → found.amount = none →
      process_record file r acc d = .error .unwrapNone) ∧
    (∀ found a, lookup_record file r.tx = some found → found.amount = some a →
      process_record file r acc d
        = .ok (acc.dispute a, insertDispute d found.tx a)) := by
  refine ⟨fun hn => ?_, fun found hf ha => ?_, fun found a hf ha => ?_⟩
  · simp [process_record, Received.fromRecord, hk, Received.tryToDisputeLookup,
      DisputeLookup.tryToProcessing, Processing.process, hn]
  · simp [process_record, Received.fromRecord, hk, Received.tryToDisputeLookup,
      DisputeLookup.tryToProcessing, Processing.process, hf, ha]
  · simp [process_record, Received.fromRecord, hk, Received.tryToDisputeLookup,
      DisputeLookup.tryToProcessing, Processing.process, hf, ha]

/-- Claim C2 (witness for the amended theorem): a dispute on tx 3 whose
first matching record is a deposit of amount 40 recovers 40, caches it and
applies it. -/
theorem C2_amended_witness :
    process_record [⟨.deposit, 2, 3, some 40⟩] ⟨.dispute, 2, 3, none⟩
        Account.new []
      = .ok (Account.new.dispute 40, insertDispute [] 3 40) :=
  (C2_amended [⟨.deposit, 2, 3, some 40⟩] ⟨.dispute, 2, 3, none⟩
    Account.new [] rfl).2.2 ⟨.deposit, 2, 3, some 40⟩ 40 rfl rfl

/-- Claim C3 (counterexample).  Running deposit(1, tx6, 1.5),
dispute(1, tx6), chargeback(1, tx6) from the initial empty client map gives
client 1 the snapshot available = 0, held = 0, total = 0, locked — not the
claimed available = 1.5 (= 15000 units), total = 1.5. -/
theorem C3_counterexample :
    (run c3File c3File initialClients).map (fun c => c 1)
      = .ok (.Frozen ⟨0, 0, 0⟩) ∧
    Account.Frozen (⟨0, 0, 0⟩ : Balance) ≠ .Frozen ⟨15000, 0, 15000⟩ :=
  ⟨rfl, by decide⟩

/-- Claim C3 (amended).  From the initial empty client map, the sequence
deposit(1, tx6, 1.5), dispute(1, tx6), chargeback(1, tx6) leaves client 1
with available = 0, held = 0, total = 0, locked = true; and every
subsequent operation of any kind on a frozen account is a no-op: whenever
`process_record` succeeds on a frozen account, the account is returned
unchanged. -/
theorem C3_amended :
    (run c3File c3File initialClients).map (fun c => c 1)
      = .ok (.Frozen ⟨0, 0, 0⟩) ∧
    ∀ (file : List Record) (r : Record) (d : List (Nat × Int)) (b : Balance)
      (res : Account × List (Nat × Int)),
      process_record file r (.Frozen b) d = .ok res → res.1 = .Frozen b :=
  ⟨rfl, fun file r d b res h => process_record_frozen file r d b res h⟩

/-- Claim C3 (witness for the amended theorem): a deposit processed against
a frozen account leaves the account unchanged. -/
theorem C3_amended_witness :
    (Account.Frozen ⟨1, 2, 3⟩, ([] : List (Nat × Int))).1
      = Account.Frozen ⟨1, 2, 3⟩ :=
  C3_amended.2 [] ⟨.deposit, 1, 1, some 5⟩ [] ⟨1, 2, 3⟩
    (Account.Frozen ⟨1, 2, 3⟩, []) rfl

/-- Claim C4 (code bug witness).  `Account::chargeback` with a non-positive
amount on an `Open` account is NOT a complete no-op: the balance is
unchanged but the account is unconditionally frozen, changing the
`Open`/`Frozen` status. -/
theorem C4_chargeback_nonpositive_freezes :
    Account.chargeback (.Open Balance.new) (-1) = .Frozen Balance.new ∧
    Account.chargeback (.Open Balance.new) 0 = .Frozen Balance.new ∧
    Account.Frozen Balance.new ≠ Account.Open Balance.new :=
  ⟨rfl, rfl, by decide⟩

/-- Claim C5: every account reachable from the fresh zero-balance open
account by any sequence of deposit/withdraw/dispute/resolve/chargeback
operations with any amounts satisfies `total = available + held`. -/
theorem C5_total_invariant (ops : List Op) :
    ((Account.new.applyOps ops).balance).total
      = ((Account.new.applyOps ops).balance).available
        + ((Account.new.applyOps ops).balance).held :=
  applyOps_preserves_total ops Account.new rfl

/-- Claim C6: a `Frozen` account is left frozen with the same balance by
every single further operation with any amount, and by every sequence of
further operations — it never returns to `Open`. -/
theorem C6_frozen_forever :
    (∀ (b : Balance) (op : Op), Account.applyOp (.Frozen b) op = .Frozen b) ∧
    (∀ (b : Balance) (ops : List Op),
      Account.applyOps (.Frozen b) ops = .Frozen b) := by
  refine ⟨applyOp_frozen, fun b ops => ?_⟩
  induction ops with
  | nil => rfl
  | cons op rest ih =>
    have hstep : Account.applyOps (.Frozen b) (op :: rest)
        = Account.applyOps (Account.applyOp (.Frozen b) op) rest := rfl
    rw [hstep, applyOp_frozen]
    exact ih

/-- Claim C7: on an open account, `withdraw(amount)` changes the balance
exactly when `available > amount` strictly and `amount > 0`, in which case
available and total each decrease by the amount; in particular any
`amount ≥ available` (including equality) leaves the balance unchanged. -/
theorem C7_withdraw_strict (b : Balance) (amount : Int) :
    Account.withdraw (.Open b) amount = .Open (b.withdraw amount) ∧
    Balance.withdraw b amount
      = (if b.available > amount ∧ amount > 0 then
          ⟨b.available - amount, b.held, b.total - amount⟩ else b) ∧
    (amount ≥ b.available → Balance.withdraw b amount = b) := by
  refine ⟨rfl, rfl, fun h => ?_⟩
  simp only [Balance.withdraw]
  rw [if_neg (by omega)]

/-- Claim C7 (witness): withdrawing 6 from available 6 (amount equal to
available) leaves the balance unchanged. -/
theorem C7_withdraw_strict_witness :
    Balance.withdraw ⟨6, 1, 7⟩ 6 = ⟨6, 1, 7⟩ :=
  (C7_withdraw_strict ⟨6, 1, 7⟩ 6).2.2 (by decide)

/-- Claim C8: a resolve or chargeback record that finds no dispute-cache
entry for its transaction id leaves the account and the cache unchanged
(silent no-op); one that finds the entry consumes it — the resulting
cache is the old cache with the entry erased, and the erased cache no
longer contains the transaction id, so any later resolve/chargeback for it
takes the no-op branch. -/
theorem C8_cache_consumed_once (file : List Record) (r : Record)
    (acc : Account) (d : List (Nat × Int))
    (hk : r.kind = .resolve ∨ r.kind = .chargeback) :
    (lookupDispute d r.tx = none → process_record file r acc d = .ok (acc, d)) ∧
    (∀ a, lookupDispute d r.tx = some a →
      ∃ acc', process_record file r acc d = .ok (acc', eraseDispute d r.tx) ∧
        lookupDispute (eraseDispute d r.tx) r.tx = none) := by
  rcases hk with hk | hk
  · refine ⟨fun hn => ?_, fun a ha => ⟨acc.resolve a, ?_, ?_⟩⟩
    · simp [process_record, Received.fromRecord, hk, Received.tryToResolved,
        Resolved.tryToProcessing, Processing.process, hn]
    · simp [process_record, Received.fromRecord, hk, Received.tryToResolved,
        Resolved.tryToProcessing, Processing.process, ha]
    · exact lookupDispute_eraseDispute d r.tx
  · refine ⟨fun hn => ?_, fun a ha => ⟨acc.chargeback a, ?_, ?_⟩⟩
    · simp [process_record, Received.fromRecord, hk, Received.tryToChargedBack,
        ChargedBack.tryToProcessing, Processing.process, hn]
    · simp [process_record, Received.fromRecord, hk, Received.tryToChargedBack,
        ChargedBack.tryToProcessing, Processing.process, ha]
    · exact lookupDispute_eraseDispute d r.tx

/-- Claim C8 (witness): a resolve for tx 7 with the cache entry (7, 3)
consumes the entry, and the resulting cache no longer contains tx 7. -/
theorem C8_cache_consumed_once_witness :
    ∃ acc', process_record [] ⟨.resolve, 1, 7, none⟩ (.Open ⟨0, 3, 3⟩) [(7, 3)]
        = .ok (acc', eraseDispute [(7, 3)] 7) ∧
      lookupDispute (eraseDispute [(7, 3)] 7) 7 = none :=
  (C8_cache_consumed_once [] ⟨.resolve, 1, 7, none⟩ (.Open ⟨0, 3, 3⟩) [(7, 3)]
    (Or.inl rfl)).2 3 rfl

/-- Claim C9: a deposit or withdrawal record with an absent amount fails
the `Received` → `Processing` conversion with an `InvalidTransition` error
naming the source and target states, and `runLoop` propagates that error,
aborting the run with an error result; a record of any other kind also
fails the `Received` → `Processing` conversion with an `InvalidTransition`
error (whose `to` field is the kind's debug name). -/
theorem C9_invalid_transition (r : Record) :
    ((r.kind = .deposit ∨ r.kind = .withdrawal) → r.amount = none →
      (Received.fromRecord r).tryToProcessing
        = .error ⟨"Transaction<Received>", "Transaction<Processing>"⟩ ∧
      ∀ (records stream : List Record) (clients : Clients)
        (disputes : List (Nat × Int)),
        runLoop records (r :: stream) clients disputes
          = .error (.invalidTransition
              ⟨"Transaction<Received>", "Transaction<Processing>"⟩)) ∧
    ((r.kind = .dispute ∨ r.kind = .resolve ∨ r.kind = .chargeback) →
      (Received.fromRecord r).tryToProcessing
        = .error ⟨"Transaction<Received>", r.kind.debugName⟩) := by
  constructor
  · rintro (hk | hk) ha <;>
    · have hp : ∀ (records : List Record) (acc : Account)
          (disputes : List (Nat × Int)),
          process_record records r acc disputes
            = .error (.invalidTransition
                ⟨"Transaction<Received>", "Transaction<Processing>"⟩) := by
        intro records acc disputes
        simp [process_record, Received.fromRecord, hk,
          Received.tryToProcessing, ha]
      refine ⟨?_, fun records stream clients disputes => ?_⟩
      · simp [Received.fromRecord, hk, Received.tryToProcessing, ha]
      · simp [runLoop, hp]
  · rintro (hk | hk | hk) <;>
      simp [Received.fromRecord, hk, Received.tryToProcessing,
        TransactionKind.debugName]

/-- Claim C9 (witness): a deposit record with an absent amount fails the
conversion with the state-naming error and aborts the loop. -/
theorem C9_invalid_transition_witness :
    runLoop [] [⟨.deposit, 1, 1, none⟩] initialClients []
      = .error (.invalidTransition
          ⟨"Transaction<Received>", "Transaction<Processing>"⟩) :=
  ((C9_invalid_transition ⟨.deposit, 1, 1, none⟩).1 (Or.inl rfl) rfl).2
    [] [] initialClients []

/-- Claim C10: when the record lookup for a dispute's transaction id finds
a record with a present positive amount, each occurrence of the dispute is
applied in full: processing it once moves the amount from available to
held and caches it; processing it again immediately (no intervening
resolve/chargeback) moves the amount a second time — held grows by the
amount twice, available shrinks by it twice — and re-inserting overwrites
the cache entry, leaving the cache as after the first dispute.  Dispute
application is not idempotent. -/
theorem C10_dispute_not_idempotent (file : List Record) (r : Record)
    (b : Balance) (d : List (Nat × Int)) (found : Record) (a : Int)
    (hk : r.kind = .dispute) (hl : lookup_record file r.tx = some found)
    (ha : found.amount = some a) (hpos : 0 < a) :
    process_record file r (.Open b) d
      = .ok (.Open (b.dispute a), insertDispute d found.tx a) ∧
    process_record file r (.Open (b.dispute a)) (insertDispute d found.tx a)
      = .ok (.Open ((b.dispute a).dispute a), insertDispute d found.tx a) ∧
    ((b.dispute a).dispute a).held = b.held + a + a ∧
    ((b.dispute a).dispute a).available = b.available - a - a := by
  refine ⟨?_, ?_, ?_, ?_⟩
  · simp [process_record, Received.fromRecord, hk, Received.tryToDisputeLookup,
      hl, ha, DisputeLookup.tryToProcessing, Processing.process,
      Account.dispute]
  · rw [show insertDispute d found.tx a
        = insertDispute (insertDispute d found.tx a) found.tx a from
        (insertDispute_insertDispute d found.tx a).symm]
    simp [process_record, Received.fromRecord, hk, Received.tryToDisputeLookup,
      hl, ha, DisputeLookup.tryToProcessing, Processing.process,
      Account.dispute, insertDispute_insertDispute]
  · simp [Balance.dispute, hpos]
  · simp [Balance.dispute, hpos]

/-- Claim C10 (witness): disputing tx 1 (amount 5) twice against available
5 doubles the held funds to 10. -/
theorem C10_dispute_not_idempotent_witness :
    (Balance.dispute (Balance.dispute ⟨5, 0, 5⟩ 5) 5).held = 0 + 5 + 5 :=
  (C10_dispute_not_idempotent [⟨.deposit, 1, 1, some 5⟩] ⟨.dispute, 9, 1, none⟩
    ⟨5, 0, 5⟩ [] ⟨.deposit, 1, 1, some 5⟩ 5 rfl rfl rfl (by decide)).2.2.1

end Koncord
